import Mathlib

/-!
Verification of FlxOne/logrus-redis-hook (logrus_redis.go) against its
natural-language specification.

The Go source is shallowly embedded below.  External effects are made
explicit parameters:
* the result of the construction-time `PING` on a pooled connection is a
  `Except String Unit` argument to `NewHook`;
* `os.Hostname` / `reportHostname` is abstracted as the already-resolved
  hostname string handed to the message constructors;
* `entry.Time.UTC().Format(time.RFC3339Nano)` is abstracted as the
  pre-formatted timestamp string stored in the entry;
* the Redis `RPUSH` performed by `processEntry` is modelled by returning
  the push command (destination key and JSON payload) instead of sending it.

Machine integers do not overflow in any modelled path, so Go ints are Nat/Int.
-/

namespace LogRedis

/-! ## The logrus severity enum (external collaborator of the hook)

logrus levels are a uint32 enum: PanicLevel = 0, FatalLevel = 1,
ErrorLevel = 2, WarnLevel = 3, InfoLevel = 4, DebugLevel = 5; larger
numeric value = less severe.  We model a level as the bare Nat so that
the hook's stored level can also hold values outside the six known ones. -/

def PanicLevel : Nat := 0
def FatalLevel : Nat := 1
def ErrorLevel : Nat := 2
def WarnLevel : Nat := 3
def InfoLevel : Nat := 4
def DebugLevel : Nat := 5

/-- logrus `Level.String()`. -/
def levelString (l : Nat) : String :=
  if l = DebugLevel then "debug"
  else if l = InfoLevel then "info"
  else if l = WarnLevel then "warning"
  else if l = ErrorLevel then "error"
  else if l = FatalLevel then "fatal"
  else if l = PanicLevel then "panic"
  else "unknown"

/-! ## Go dynamic values held in `entry.Data` (logrus.Fields)

`logEntryToStringMap` only distinguishes "is a string" from "anything
else, rendered with fmt.Sprintf(\x22%v\x22, value)"; we model the value
universe with the constructors the example program uses. -/

inductive GoValue where
  | str (s : String)
  | int (n : Int)
  | boolean (b : Bool)
  deriving DecidableEq, Repr

/-- Go `fmt.Sprintf("%v", value)` default display on the modelled values. -/
def sprintfV : GoValue → String
  | .str s => s
  | .int n => toString n
  | .boolean b => if b then "true" else "false"

/-- A logrus `*Entry` as seen by this hook: formatted time, level,
message and the `Data` field map (association list; key order is the Go
map iteration order, irrelevant to every property below). -/
structure Entry where
  time : String
  level : Nat
  message : String
  data : List (String × GoValue)
  deriving DecidableEq, Repr

/-! ## Envelope structs and their JSON shape -/

/-- The shared nested `@fields` struct of both envelope versions.
Defaults are the Go zero values of `LogstashMessageV0{}`. -/
structure LogstashFields where
  file : String := ""
  level : String := ""
  timestamp : String := ""
  deriving DecidableEq, Repr

/-- `LogstashMessageV0` (v0 format). -/
structure LogstashMessageV0 where
  type : String := ""
  timestamp : String := ""
  sourcehost : String := ""
  message : String := ""
  level : String := ""
  fields : LogstashFields := {}
  customFields : List (String × String) := []
  deriving DecidableEq, Repr

/-- `LogstashMessageV1` (v1 format): no top-level `Level` field. -/
structure LogstashMessageV1 where
  type : String := ""
  timestamp : String := ""
  sourcehost : String := ""
  message : String := ""
  fields : LogstashFields := {}
  customFields : List (String × String) := []
  deriving DecidableEq, Repr

/-- JSON values, as far as `encoding/json` output of the two envelope
structs needs: `json.Marshal` of a nil interface is `null`. -/
inductive Json where
  | null
  | str (s : String)
  | obj (fields : List (String × Json))

/-- Keys of a JSON object field list. -/
def jsonKeys (fields : List (String × Json)) : List String :=
  fields.map Prod.fst

/-- `encoding/json` output shape of `LogstashMessageV0` following the
struct tags: `@type` carries `omitempty`, struct fields keep declaration
order, and the `map[string]string` custom fields are emitted with sorted
keys (Go sorts map keys when marshalling). -/
def marshalV0 (m : LogstashMessageV0) : List (String × Json) :=
  (if m.type = "" then [] else [("@type", Json.str m.type)]) ++
  [("@timestamp", Json.str m.timestamp),
   ("@source_host", Json.str m.sourcehost),
   ("@message", Json.str m.message),
   ("@level", Json.str m.level),
   ("@fields", Json.obj [("file", Json.str m.fields.file),
                         ("level", Json.str m.fields.level),
                         ("timestamp", Json.str m.fields.timestamp)]),
   ("@custom_fields", Json.obj ((m.customFields.mergeSort
       (fun a b => a.1 ≤ b.1)).map (fun kv => (kv.1, Json.str kv.2))))]

/-- `encoding/json` output shape of `LogstashMessageV1`: tag of the
source-host field is `host`, tag of the message field is `message`, no
`@level` field. -/
def marshalV1 (m : LogstashMessageV1) : List (String × Json) :=
  (if m.type = "" then [] else [("@type", Json.str m.type)]) ++
  [("@timestamp", Json.str m.timestamp),
   ("host", Json.str m.sourcehost),
   ("message", Json.str m.message),
   ("@fields", Json.obj [("file", Json.str m.fields.file),
                         ("level", Json.str m.fields.level),
                         ("timestamp", Json.str m.fields.timestamp)]),
   ("@custom_fields", Json.obj ((m.customFields.mergeSort
       (fun a b => a.1 ≤ b.1)).map (fun kv => (kv.1, Json.str kv.2))))]

/-! ## The hook and its operations -/

/-- `RedisHook`.  The pool is external; the async channel is modelled by
its buffered contents plus its capacity (`EntryQueue := nil` in sync
mode becomes an empty queue of capacity 0). -/
structure RedisHook where
  redisHost : String
  redisKey : String
  logstashFormat : String
  redisPort : Int
  level : Nat
  async : Bool
  entryQueue : List Entry
  queueCap : Nat
  deriving DecidableEq, Repr

/-- One character of Go `strings.ToLower` (ASCII range; every format
string this hook is exercised with is ASCII). -/
def asciiToLower (c : Char) : Char :=
  if 'A' ≤ c ∧ c ≤ 'Z' then Char.ofNat (c.toNat + 32) else c

/-- Go `strings.ToLower`, character by character. -/
def stringToLower (s : String) : String :=
  ⟨s.data.map asciiToLower⟩

/-- `NewHook`.  `pingResult` is the outcome of `conn.Do("PING")` on the
freshly acquired pool connection. -/
def NewHook (host : String) (port : Int) (key : String) (format : String)
    (level : Nat) (async : Bool) (bufferSize : Nat)
    (pingResult : Except String Unit) : Except String RedisHook :=
  match pingResult with
  | .error e => .error ("unable to connect to REDIS: " ++ e)
  | .ok _ =>
    let format :=
      if stringToLower format ≠ "v0" ∧ stringToLower format ≠ "v1" then "v0"
      else format
    .ok { redisHost := host
          redisKey := key
          logstashFormat := format
          redisPort := port
          level := level
          async := async
          entryQueue := []
          queueCap := if async then bufferSize else 0 }

/-- `logEntryToStringMap`. -/
def logEntryToStringMap (entryData : List (String × GoValue)) :
    List (String × String) :=
  if entryData.length > 0 then
    entryData.map (fun kv =>
      match kv.2 with
      | .str s => (kv.1, s)
      | v => (kv.1, sprintfV v))
  else []

/-- `createV0Message` (hostname = result of `reportHostname()`). -/
def createV0Message (hostname : String) (entry : Entry) : LogstashMessageV0 :=
  let m : LogstashMessageV0 := {}
  { m with
    timestamp := entry.time
    sourcehost := hostname
    message := entry.message
    fields := { m.fields with level := levelString entry.level }
    customFields := logEntryToStringMap entry.data }

/-- `createV1Message`. -/
def createV1Message (hostname : String) (entry : Entry) : LogstashMessageV1 :=
  let m : LogstashMessageV1 := {}
  { m with
    timestamp := entry.time
    sourcehost := hostname
    message := entry.message
    fields := { m.fields with level := levelString entry.level }
    customFields := logEntryToStringMap entry.data }

/-- The `RPUSH key payload` a `processEntry` call issues. -/
structure PushCommand where
  key : String
  payload : Json

/-- `processEntry` up to the network write: the switch on
`hook.LogstashFormat` leaves `msg` as the nil interface when neither
case matches, and `json.Marshal(nil)` serializes to `null`. -/
def processEntry (hook : RedisHook) (hostname : String) (entry : Entry) :
    PushCommand :=
  { key := hook.redisKey
    payload :=
      match hook.logstashFormat with
      | "v0" => Json.obj (marshalV0 (createV0Message hostname entry))
      | "v1" => Json.obj (marshalV1 (createV1Message hostname entry))
      | _ => Json.null }

/-- `Fire`.  In async mode the `select` with `default` enqueues when the
buffered channel has room and otherwise drops the entry (printing a
diagnostic to stdout), returning nil either way; in sync mode it returns
`processEntry`'s error, whose network outcome is the `sendResult`
parameter.  The result pairs the updated hook with the returned error. -/
def Fire (hook : RedisHook) (entry : Entry) (sendResult : Option String) :
    RedisHook × Option String :=
  if hook.async then
    if hook.entryQueue.length < hook.queueCap then
      ({ hook with entryQueue := hook.entryQueue ++ [entry] }, none)
    else
      (hook, none)
  else
    (hook, sendResult)

/-- `Levels`: `make([]logrus.Level, 1)` yields the one-element slice
`[0]`, then the cascading `switch` with `fallthrough` appends the
matched level and every more severe one.  The switch is unrolled per
entry case. -/
def Levels (hookLevel : Nat) : List Nat :=
  let levels : List Nat := [0]
  if hookLevel = DebugLevel then
    levels ++ [DebugLevel, InfoLevel, WarnLevel, ErrorLevel, FatalLevel, PanicLevel]
  else if hookLevel = InfoLevel then
    levels ++ [InfoLevel, WarnLevel, ErrorLevel, FatalLevel, PanicLevel]
  else if hookLevel = WarnLevel then
    levels ++ [WarnLevel, ErrorLevel, FatalLevel, PanicLevel]
  else if hookLevel = ErrorLevel then
    levels ++ [ErrorLevel, FatalLevel, PanicLevel]
  else if hookLevel = FatalLevel then
    levels ++ [FatalLevel, PanicLevel]
  else if hookLevel = PanicLevel then
    levels ++ [PanicLevel]
  else levels

/-- Sample entry used by concrete counterexamples and witnesses. -/
def sampleEntry : Entry :=
  { time := "2016-01-01T00:00:00Z"
    level := InfoLevel
    message := "just some info logging..."
    data := [("animal", GoValue.str "walrus"), ("number", GoValue.int 1)] }

/-- An async hook whose queue is at capacity, for concrete instantiations. -/
def fullAsyncHook : RedisHook :=
  { redisHost := "localhost"
    redisKey := "my_redis_key"
    logstashFormat := "v0"
    redisPort := 6379
    level := DebugLevel
    async := true
    entryQueue := [sampleEntry]
    queueCap := 1 }

/-! ## Theorems for the claims -/

/-- C2: for every known minimum level (numeric code ≤ DebugLevel = 5), the
list `Levels` returns starts with the zero placeholder, and its tail
contains a level code `c` exactly when `c` is at or more severe than the
threshold — in logrus's numeric coding (smaller value = more severe) that
is `c ≤ l`; in particular for minLevel = warn the tail is exactly
{warn, error, fatal, panic}. -/
theorem levels_cascading_threshold (l c : Nat) (h : l ≤ DebugLevel) :
    (Levels l).head? = some 0 ∧
    (c ∈ (Levels l).drop 1 ↔ c ≤ l) ∧
    (Levels WarnLevel).drop 1 = [WarnLevel, ErrorLevel, FatalLevel, PanicLevel] := by
  refine ⟨?_, ?_, by decide⟩
  · unfold Levels
    split_ifs <;> rfl
  · simp only [DebugLevel] at h
    interval_cases l <;>
      simp [Levels, DebugLevel, InfoLevel, WarnLevel, ErrorLevel, FatalLevel,
            PanicLevel] <;>
      omega

theorem levels_cascading_threshold_witness :
    WarnLevel ≤ DebugLevel ∧
    ((Levels WarnLevel).head? = some 0 ∧
     (ErrorLevel ∈ (Levels WarnLevel).drop 1 ↔ ErrorLevel ≤ WarnLevel) ∧
     (Levels WarnLevel).drop 1 = [WarnLevel, ErrorLevel, FatalLevel, PanicLevel]) :=
  ⟨by decide, levels_cascading_threshold WarnLevel ErrorLevel (by decide)⟩

/-- C5: if the configured minimum level matches none of the six known
levels (numeric code > DebugLevel = 5), `Levels` returns only the single
zero-valued placeholder produced by `make([]logrus.Level, 1)`. -/
theorem levels_unknown_only_placeholder (l : Nat) (h : DebugLevel < l) :
    Levels l = [0] := by
  unfold Levels
  simp only [DebugLevel, InfoLevel, WarnLevel, ErrorLevel, FatalLevel,
             PanicLevel] at h ⊢
  split_ifs <;> first | rfl | omega

theorem levels_unknown_only_placeholder_witness :
    DebugLevel < 6 ∧ Levels 6 = [0] :=
  ⟨by decide, levels_unknown_only_placeholder 6 (by decide)⟩

/-- C10: for every configured minimum level, known or unknown, the first
element of the returned list is the zero value, that zero value is the
numeric code of PanicLevel, and hence PanicLevel's code is a member of
every returned list. -/
theorem levels_placeholder_is_panic (l : Nat) :
    (Levels l).head? = some PanicLevel ∧
    PanicLevel = 0 ∧
    PanicLevel ∈ Levels l := by
  refine ⟨?_, rfl, ?_⟩ <;> (unfold Levels; split_ifs <;> simp [PanicLevel])

/-- C4: in async mode `Fire` returns nil for every entry, and when the
queue is at capacity the entry is dropped (the hook, queue included, is
unchanged) while the return value is still nil. -/
theorem fire_async_always_succeeds (hook : RedisHook) (entry : Entry)
    (sendResult : Option String) (h : hook.async = true) :
    (Fire hook entry sendResult).2 = none ∧
    (hook.queueCap ≤ hook.entryQueue.length →
      (Fire hook entry sendResult).1 = hook) := by
  unfold Fire
  rw [if_pos h]
  constructor
  · split <;> rfl
  · intro hfull
    rw [if_neg (by omega)]

theorem fire_async_always_succeeds_witness :
    fullAsyncHook.async = true ∧
    ((Fire fullAsyncHook sampleEntry none).2 = none ∧
     (fullAsyncHook.queueCap ≤ fullAsyncHook.entryQueue.length →
       (Fire fullAsyncHook sampleEntry none).1 = fullAsyncHook)) :=
  ⟨rfl, fire_async_always_succeeds fullAsyncHook sampleEntry none rfl⟩

/-- C8: when the construction-time PING fails, `NewHook` returns the
"unable to connect to REDIS" error and no hook; when it succeeds, a hook
is returned with no error. -/
theorem newhook_ping_gate (host : String) (port : Int) (key : String)
    (format : String) (level : Nat) (async : Bool) (bufferSize : Nat)
    (msg : String) :
    NewHook host port key format level async bufferSize (.error msg) =
      .error ("unable to connect to REDIS: " ++ msg) ∧
    ∃ hook, NewHook host port key format level async bufferSize (.ok ()) =
      .ok hook :=
  ⟨rfl, ⟨_, rfl⟩⟩

/-- C7: the custom-fields map has one entry per key of the entry's field
map; a string value is copied verbatim (which coincides with its `%v`
display) and any other value is rendered with `fmt.Sprintf("%v", ·)`;
in particular {animal: "walrus", number: 1} yields
{"animal": "walrus", "number": "1"}. -/
theorem custom_fields_stringify (entryData : List (String × GoValue))
    (k : String) (v : GoValue) (h : (k, v) ∈ entryData) :
    (logEntryToStringMap entryData).length = entryData.length ∧
    (k, (match v with | .str s => s | w => sprintfV w)) ∈
      logEntryToStringMap entryData ∧
    logEntryToStringMap
        [("animal", GoValue.str "walrus"), ("number", GoValue.int 1)] =
      [("animal", "walrus"), ("number", "1")] := by
  have hpos : entryData.length > 0 :=
    List.length_pos.mpr (List.ne_nil_of_mem h)
  unfold logEntryToStringMap
  rw [if_pos hpos]
  refine ⟨by simp, ?_, by decide⟩
  exact List.mem_map.mpr ⟨(k, v), h, by cases v <;> rfl⟩

theorem custom_fields_stringify_witness :
    ("animal", GoValue.str "walrus") ∈
      [("animal", GoValue.str "walrus"), ("number", GoValue.int 1)] ∧
    ((logEntryToStringMap
        [("animal", GoValue.str "walrus"), ("number", GoValue.int 1)]).length =
      ([("animal", GoValue.str "walrus"), ("number", GoValue.int 1)] :
        List (String × GoValue)).length ∧
     ("animal",
       (match GoValue.str "walrus" with | .str s => s | w => sprintfV w)) ∈
       logEntryToStringMap
         [("animal", GoValue.str "walrus"), ("number", GoValue.int 1)] ∧
     logEntryToStringMap
         [("animal", GoValue.str "walrus"), ("number", GoValue.int 1)] =
       [("animal", "walrus"), ("number", "1")]) :=
  ⟨by decide,
   custom_fields_stringify _ "animal" (GoValue.str "walrus") (by decide)⟩

/-- C9: a hook constructed with the unrecognized format string "bogus" is
identical to one constructed with "v0" — the stored format is "v0" and
`processEntry` pushes the V0 envelope. -/
theorem bogus_format_defaults_to_v0 (host : String) (port : Int) (key : String)
    (level : Nat) (async : Bool) (bufferSize : Nat) (hook : RedisHook)
    (hostname : String) (entry : Entry)
    (h : NewHook host port key "bogus" level async bufferSize (.ok ()) =
      .ok hook) :
    NewHook host port key "bogus" level async bufferSize (.ok ()) =
      NewHook host port key "v0" level async bufferSize (.ok ()) ∧
    hook.logstashFormat = "v0" ∧
    processEntry hook hostname entry =
      { key := hook.redisKey
        payload := Json.obj (marshalV0 (createV0Message hostname entry)) } := by
  have e1 : NewHook host port key "bogus" level async bufferSize (.ok ()) =
      .ok { redisHost := host
            redisKey := key
            logstashFormat := "v0"
            redisPort := port
            level := level
            async := async
            entryQueue := []
            queueCap := if async then bufferSize else 0 } := rfl
  rw [e1] at h
  injection h with h
  subst h
  exact ⟨rfl, rfl, rfl⟩

theorem bogus_format_defaults_to_v0_witness :
    NewHook "localhost" 6379 "my_redis_key" "bogus" DebugLevel false 1000
        (.ok ()) =
      .ok { redisHost := "localhost"
            redisKey := "my_redis_key"
            logstashFormat := "v0"
            redisPort := 6379
            level := DebugLevel
            async := false
            entryQueue := []
            queueCap := 0 } ∧
    (NewHook "localhost" 6379 "my_redis_key" "bogus" DebugLevel false 1000
        (.ok ()) =
      NewHook "localhost" 6379 "my_redis_key" "v0" DebugLevel false 1000
        (.ok ()) ∧
     RedisHook.logstashFormat
       { redisHost := "localhost"
         redisKey := "my_redis_key"
         logstashFormat := "v0"
         redisPort := 6379
         level := DebugLevel
         async := false
         entryQueue := []
         queueCap := 0 } = "v0" ∧
     processEntry
       { redisHost := "localhost"
         redisKey := "my_redis_key"
         logstashFormat := "v0"
         redisPort := 6379
         level := DebugLevel
         async := false
         entryQueue := []
         queueCap := 0 } "myhost" sampleEntry =
       { key := "my_redis_key"
         payload := Json.obj (marshalV0 (createV0Message "myhost" sampleEntry)) }) :=
  ⟨rfl,
   bogus_format_defaults_to_v0 "localhost" 6379 "my_redis_key" DebugLevel false
     1000 _ "myhost" sampleEntry rfl⟩

/-- C1: evaluation at the failing input.  `NewHook` lowercases the format
string only for the recognition test and stores the original-cased
string, so a hook built with "V1" keeps `LogstashFormat = "V1"`; the
switch in `processEntry` then matches neither "v0" nor "v1", leaves the
message as the nil interface, and pushes the serialization `null` —
unlike a hook built with "v1", which pushes the V1 envelope. -/
theorem mixed_case_v1_not_equivalent_to_v1 :
    (NewHook "localhost" 6379 "my_redis_key" "V1" DebugLevel false 1000
        (.ok ())).map (fun hook => hook.logstashFormat) = .ok "V1" ∧
    (NewHook "localhost" 6379 "my_redis_key" "V1" DebugLevel false 1000
        (.ok ())).map
        (fun hook => (processEntry hook "myhost" sampleEntry).payload) =
      .ok Json.null ∧
    (NewHook "localhost" 6379 "my_redis_key" "v1" DebugLevel false 1000
        (.ok ())).map
        (fun hook => (processEntry hook "myhost" sampleEntry).payload) =
      .ok (Json.obj (marshalV1 (createV1Message "myhost" sampleEntry))) ∧
    Json.null ≠ Json.obj (marshalV1 (createV1Message "myhost" sampleEntry)) :=
  ⟨rfl, rfl, rfl, fun h => Json.noConfusion h⟩

/-- C3 counterexample: renaming the source-host field and deleting
`@level` does not account for the key set of the V1 envelope — V1 also
renames the message field, so `@message` is not among its keys. -/
theorem v1_shape_claim_false :
    ¬ (jsonKeys (marshalV1 (createV1Message "myhost" sampleEntry)) =
       ((jsonKeys (marshalV0 (createV0Message "myhost" sampleEntry))).filter
           (fun k => k != "@level")).map
         (fun k => if k = "@source_host" then "host" else k)) := by
  decide

/-- C3 amended: the V1 envelope's key set is the V0 key set with
`@source_host` renamed to `host`, `@message` renamed to `message`, and
`@level` removed; `@type` is never set; the nested fields block, custom
fields, timestamp, source host and message payloads coincide with V0. -/
theorem v1_shape_vs_v0 (hostname : String) (entry : Entry) :
    jsonKeys (marshalV1 (createV1Message hostname entry)) =
      ((jsonKeys (marshalV0 (createV0Message hostname entry))).filter
          (fun k => k != "@level")).map
        (fun k => if k = "@source_host" then "host"
                  else if k = "@message" then "message" else k) ∧
    (createV1Message hostname entry).type = "" ∧
    (createV1Message hostname entry).fields =
      (createV0Message hostname entry).fields ∧
    (createV1Message hostname entry).customFields =
      (createV0Message hostname entry).customFields ∧
    (createV1Message hostname entry).timestamp =
      (createV0Message hostname entry).timestamp ∧
    (createV1Message hostname entry).sourcehost =
      (createV0Message hostname entry).sourcehost ∧
    (createV1Message hostname entry).message =
      (createV0Message hostname entry).message :=
  ⟨rfl, rfl, rfl, rfl, rfl, rfl, rfl⟩

/-- C6: in the V0 envelope the top-level `@level` field is never
populated (stays the zero-value empty string), while the nested
`@fields` block carries the entry's severity rendered by
`logrus.Level.String()` in `level` and empty strings in `file` and
`timestamp`. -/
theorem v0_level_never_populated (hostname : String) (entry : Entry) :
    (createV0Message hostname entry).level = "" ∧
    (marshalV0 (createV0Message hostname entry)).lookup "@level" =
      some (Json.str "") ∧
    (createV0Message hostname entry).fields.level = levelString entry.level ∧
    (createV0Message hostname entry).fields.file = "" ∧
    (createV0Message hostname entry).fields.timestamp = "" :=
  ⟨rfl, rfl, rfl, rfl, rfl⟩

end LogRedis
